import Mathlib

/-!
Verification of the auto-moderation gating pipeline.

Shallow embedding of the content-safety gating logic of the repository
`Hackaton-Milo/auto-moderation`, covering the two demo drivers
`auto_demo.py` and `manual_demo.py`.  Python strings are embedded as Lean
`String` (character lists); the case functions `str.lower` / `str.upper`
and the regex word class `\w` are modelled on the ASCII range, which is
the range exercised by every literal in the source.  The external
text-generation oracle (`ollama.generate`) is an injected function
`String → Except String String`: `.error` models a raised exception.
The third-party `guardrails` library is not part of the repository;
`Guard.parse` with the `filter` on-fail policy is modelled from the spec
(see `guardParse`).
-/

namespace AutoModeration

/-- Python `needle.isprefix(hay)` in list form: `strLeads n h` is true iff
`n` is an initial segment of `h`. -/
def strLeads : List Char → List Char → Bool
  | [], _ => true
  | _ :: _, [] => false
  | a :: as, b :: bs => a == b && strLeads as bs

/-- Python substring test `needle in hay` on character lists. -/
def pySubstr (needle : List Char) : List Char → Bool
  | [] => strLeads needle []
  | c :: t => strLeads needle (c :: t) || pySubstr needle t

/-- Python `str.lower()` (ASCII model): `Char.toLower` on every character. -/
def pyLower (s : String) : String :=
  ⟨s.data.map Char.toLower⟩

/-- Python `needle in hay` on strings. -/
def pyStrIn (needle hay : String) : Bool :=
  pySubstr needle.data hay.data

/-- The regex word class `\w` (ASCII model): letters, digits, underscore. -/
def isWordChar (c : Char) : Bool :=
  c.isAlphanum || c == '_'

/-- Whether position `i` of `text` holds a word character
(out of range counts as a non-word character, like the string edge). -/
def wordAt (text : List Char) (i : Nat) : Bool :=
  isWordChar (text.getD i ' ')

/-- The regex assertion `\b` at position `i`: a word boundary, i.e. exactly
one of the character before `i` and the character at `i` is a word
character (positions outside the string count as non-word). -/
def boundaryAt (text : List Char) (i : Nat) : Bool :=
  wordAt text i != (if i = 0 then false else wordAt text (i - 1))

/-- Case-insensitive occurrence of `stem` at position `i` of `text`
(`re.IGNORECASE`): the next `stem.length` characters, lowered, equal the
(lowercase) stem. -/
def ciOccursAt (text stem : List Char) (i : Nat) : Bool :=
  ((text.drop i).take stem.length).map Char.toLower == stem.map Char.toLower

/-- The boundary part of the pattern `\b<stem>[s]?\b` at position `i`:
a word boundary before the stem, and after it either directly a word
boundary, or an `s` (case-insensitive) followed by a word boundary. -/
def wholeWordStemAt (text stem : List Char) (i : Nat) : Bool :=
  boundaryAt text i &&
    (boundaryAt text (i + stem.length) ||
      (Char.toLower (text.getD (i + stem.length) ' ') == 's' &&
        boundaryAt text (i + stem.length + 1)))

/-- The compiled pattern `re.compile(r"\b<stem>[s]?\b", re.IGNORECASE)`
matching at position `i` of `text`. -/
def patMatchAt (text stem : List Char) (i : Nat) : Bool :=
  ciOccursAt text stem i && wholeWordStemAt text stem i

/-- Python `pattern.search(text)`: the pattern matches at some position. -/
def patSearch (text stem : List Char) : Bool :=
  (List.range (text.length + 1)).any (patMatchAt text stem)

/-- Validator outcome: `guardrails.validators.PassResult` /
`FailResult(reason)`. -/
inductive ValidationResult where
  | PassResult : ValidationResult
  | FailResult : String → ValidationResult
  deriving DecidableEq, Repr

/-- The `RegexBanList.banned_words` list (identical in both demo files). -/
def banned_words : List String := ["kitty", "meow"]

/-- The stems of the compiled patterns of `RegexBanList`,
`[r"\bcat[s]?\b", r"\bkitten[s]?\b"]`. -/
def patternStems : List String := ["cat", "kitten"]

/-- The banned-word loop of `RegexBanList._validate`: the first word of
`words` whose lowering occurs in the lowered text, in list order. -/
def findBannedWord (textLower : String) : List String → Option String
  | [] => none
  | w :: ws =>
    if pyStrIn (pyLower w) textLower then some w else findBannedWord textLower ws

/-- The pattern loop of `RegexBanList._validate`: the first stem of
`stems` whose pattern `\b<stem>[s]?\b` matches somewhere in `value`. -/
def anyPatternMatches (value : String) : List String → Bool
  | [] => false
  | s :: ss => patSearch value.data s.data || anyPatternMatches value ss

/-- Model of `RegexBanList._validate` (identical in `auto_demo.py` and
`manual_demo.py`): lower the text; fail on the first banned word occurring
as a substring, else fail if some compiled pattern matches, else pass. -/
def regexBanListValidate (value : String) : ValidationResult :=
  let textLower := pyLower value
  match findBannedWord textLower banned_words with
  | some w => .FailResult ("Text contains banned word: '" ++ w ++ "'")
  | none =>
    if anyPatternMatches value patternStems then
      .FailResult "Text matched banned regex pattern."
    else
      .PassResult

/-- Python `str.upper()` (ASCII model): `Char.toUpper` on every character. -/
def pyUpper (s : String) : String :=
  ⟨s.data.map Char.toUpper⟩

/-- Python `str.strip()` with no argument: drop leading and trailing
whitespace. -/
def pyStrip (s : String) : String :=
  ⟨((s.data.dropWhile Char.isWhitespace).reverse.dropWhile
      Char.isWhitespace).reverse⟩

/-- Accumulator loop for `pyWords`: `acc` holds the reversed characters of
the word currently being read. -/
def pyWordsAux : List Char → List Char → List String
  | [], acc => if acc.isEmpty then [] else [⟨acc.reverse⟩]
  | c :: t, acc =>
    if c.isWhitespace then
      if acc.isEmpty then pyWordsAux t [] else ⟨acc.reverse⟩ :: pyWordsAux t []
    else pyWordsAux t (c :: acc)

/-- Python `str.split()` with no argument: the maximal whitespace-free
words, in order (runs of whitespace produce no empty pieces). -/
def pyWords (s : String) : List String :=
  pyWordsAux s.data []

/-- The classifier instruction template built by `LLMSafety.classify`
(the active template is character-for-character identical in
`auto_demo.py` and `manual_demo.py`). -/
def classifierPrompt (text : String) : String :=
  "You are a strict classifier.\n" ++
  "Classify the following text as either SAFE or UNSAFE.\n\n" ++
  "For this task, treat any content that is about or references cats " ++
  "(including cat behavior, cat care, cat images, breeds, or " ++
  "instructions involving cats) as UNSAFE. All other content should " ++
  "be labeled SAFE.\n\n" ++
  "Reply with exactly one word: SAFE or UNSAFE.\n\n" ++
  "Text:\n" ++ text ++ "\n"

/-- Model of `auto_demo.call_local_llm`: calls `ollama.generate` with NO exception
handling — a raised error propagates to the caller. -/
def autoCallLocalLlm (oracle : String → Except String String)
    (prompt : String) : Except String String :=
  oracle prompt

/-- Model of `manual_demo.call_local_llm`: calls `ollama.generate` inside
`try/except`, returning the stripped reply on success and `""` on any
exception. -/
def manualCallLocalLlm (oracle : String → Except String String)
    (prompt : String) : String :=
  match oracle prompt with
  | .ok response => pyStrip response
  | .error _ => ""

/-- Model of `auto_demo.LLMSafety.classify`:
`label = call_local_llm(prompt).strip().split()[0].upper()` — an oracle
exception propagates, and an empty/whitespace-only reply raises
`IndexError` at `[0]`. -/
def autoClassify (oracle : String → Except String String)
    (text : String) : Except String Bool := do
  let reply ← autoCallLocalLlm oracle (classifierPrompt text)
  match pyWords (pyStrip reply) with
  | [] => Except.error "IndexError: list index out of range"
  | t :: _ => pure (pyUpper t == "SAFE")

/-- Model of `manual_demo.LLMSafety.classify`: the oracle call is already guarded
(`manualCallLocalLlm`); `label` is `""` when the reply is falsy, else the
uppercased first whitespace token. -/
def manualClassify (oracle : String → Except String String)
    (text : String) : Except String Bool := do
  let label_raw := manualCallLocalLlm oracle (classifierPrompt text)
  let label ←
    if label_raw == "" then pure ""
    else
      match pyWords (pyStrip label_raw) with
      | [] => Except.error "IndexError: list index out of range"
      | t :: _ => pure (pyUpper t)
  pure (label == "SAFE")

/-- Model of `auto_demo.LLMSafety._validate`: pass iff `classify` returned true. -/
def autoLLMSafetyValidate (oracle : String → Except String String)
    (value : String) : Except String ValidationResult :=
  (autoClassify oracle value).map fun is_safe =>
    if is_safe then .PassResult
    else .FailResult "LLM classified content as UNSAFE."

/-- Model of `manual_demo.LLMSafety._validate`: pass iff `classify` returned true. -/
def manualLLMSafetyValidate (oracle : String → Except String String)
    (value : String) : Except String ValidationResult :=
  (manualClassify oracle value).map fun is_safe =>
    if is_safe then .PassResult
    else .FailResult "LLM classified content as UNSAFE."

/-- The two validator classes registered with guardrails. -/
inductive Validator where
  | RegexBanList : Validator
  | LLMSafety : Validator
  deriving DecidableEq, Repr

/-- Model of `auto_demo.create_guard`: `"regex"` selects `RegexBanList`; ANY other
name falls into the `else` branch and selects `LLMSafety`. -/
def autoCreateGuard (validator_types : List String) : List Validator :=
  validator_types.map fun t =>
    if t == "regex" then Validator.RegexBanList else Validator.LLMSafety

/-- Model of `manual_demo.create_guard`: `"regex"` selects `RegexBanList`, `"llm"`
selects `LLMSafety`; ANY other name matches no branch and adds nothing. -/
def manualCreateGuard (validator_types : List String) : List Validator :=
  validator_types.filterMap fun t =>
    if t == "regex" then some Validator.RegexBanList
    else if t == "llm" then some Validator.LLMSafety
    else none

/-- Dispatch of the `_validate` method of one validator in `auto_demo.py`. -/
def autoRunValidator (oracle : String → Except String String) :
    Validator → String → Except String ValidationResult
  | .RegexBanList, value => pure (regexBanListValidate value)
  | .LLMSafety, value => autoLLMSafetyValidate oracle value

/-- Dispatch of the `_validate` method of one validator in `manual_demo.py`. -/
def manualRunValidator (oracle : String → Except String String) :
    Validator → String → Except String ValidationResult
  | .RegexBanList, value => pure (regexBanListValidate value)
  | .LLMSafety, value => manualLLMSafetyValidate oracle value

/-- Whether some validator in the list fails on `text`; every validator
runs (no short-circuit), and an exception raised by a validator
propagates. -/
def guardAnyFail (run : Validator → String → Except String ValidationResult) :
    List Validator → String → Except String Bool
  | [], _ => pure false
  | v :: vs, text => do
    let r ← run v text
    let rest ← guardAnyFail run vs text
    match r with
    | .PassResult => pure rest
    | .FailResult _ => pure true

/-- Modelled from the spec: the third-party guardrails `Guard.parse` with
every validator registered with `on_fail="filter"` (the library itself is
not part of this repository).  Per the ValidationPipeline
contract, every configured screen runs and the `filter` policy replaces
contract of the spec, every configured screen runs and the `filter`
policy replaces the text with an empty result — surfaced to callers as
`validated_output = None` — when any screen fails; if all pass, the text
is returned unchanged. -/
def guardParse (run : Validator → String → Except String ValidationResult)
    (validators : List Validator) (llm_output : String) :
    Except String (Option String) :=
  (guardAnyFail run validators llm_output).map fun failed =>
    if failed then none else some llm_output

/-- Model of `auto_demo.apply_guard`: build the guard, parse, coalesce `None` to
`""`.  No `try/except`: an exception from `parse` propagates. -/
def autoApplyGuard (oracle : String → Except String String)
    (text : String) (validator_types : List String) : Except String String :=
  (guardParse (autoRunValidator oracle) (autoCreateGuard validator_types)
      text).map fun validated_output => validated_output.getD ""

/-- Model of `manual_demo.apply_guard` over an arbitrary `guard.parse` behaviour:
`if not text: return ""` before any guard is built; otherwise parse once
inside `try/except`, coalescing `None` to `""` and returning the original
`text` on any exception.  The second component counts how many times the
guard was constructed and parsed. -/
def applyGuardWith (parse : String → Except String (Option String))
    (text : String) : String × Nat :=
  if text == "" then ("", 0)
  else
    match parse text with
    | .ok validated_output => (validated_output.getD "", 1)
    | .error _ => (text, 1)

/-- The concrete `guard.parse` of `manual_demo`: `create_guard` then parse. -/
def manualParse (oracle : String → Except String String)
    (validator_types : List String) : String → Except String (Option String) :=
  fun text =>
    guardParse (manualRunValidator oracle) (manualCreateGuard validator_types)
      text

/-- Model of `manual_demo.apply_guard` with the concrete guard. -/
def manualApplyGuard (oracle : String → Except String String)
    (validator_types : List String) (text : String) : String :=
  (applyGuardWith (manualParse oracle validator_types) text).1

/-- The structured data of one exchange, as rendered by the panels and
summary table of `run_demo` / `pretty_print_turn`. -/
structure ExchangeResult where
  original_prompt : String
  prompt_after_guard : String
  baseline_output : String
  output_after_guard : String
  prompt_was_filtered : Bool
  response_was_filtered : Bool
  deriving DecidableEq, Repr

/-- The `prompt_filtered` flag of `auto_demo.run_demo`: initialised `False`, set to
`prompt != prompt_to_use` only when `guard_before` holds. -/
def autoPromptFiltered (guard_before : Bool)
    (prompt prompt_to_use : String) : Bool :=
  if guard_before then prompt != prompt_to_use else false

/-- The "Triggered" value of the Before-LLM row in
`manual_demo.pretty_print_turn`:
`guard_before and (prompt_after_guard or "") != (original_prompt or "")`
(the `or ""` coalesces only `None`, which never arises here since both
arguments are strings). -/
def manualPromptTriggered (guard_before : Bool)
    (prompt_after_guard original_prompt : String) : Bool :=
  guard_before && (prompt_after_guard != original_prompt)

/-- One iteration of the `auto_demo.run_demo` loop for a single `prompt`,
stripped of the rendering calls.  The second component counts the
text-generation calls made for `baseline_output` (line
`baseline_output = call_local_llm(prompt_to_use)`, which runs
unconditionally).  An uncaught exception anywhere in the iteration is the
`.error` case. -/
def autoTurn (oracle : String → Except String String)
    (validator_types : List String) (guard_before guard_after : Bool)
    (prompt : String) : Except String (ExchangeResult × Nat) := do
  let prompt_to_use ←
    if guard_before then autoApplyGuard oracle prompt validator_types
    else pure prompt
  let prompt_filtered := autoPromptFiltered guard_before prompt prompt_to_use
  let baseline_output ← autoCallLocalLlm oracle prompt_to_use
  let outPair ←
    if guard_after then do
      let guarded_output ← autoApplyGuard oracle baseline_output validator_types
      pure (guarded_output, baseline_output != guarded_output)
    else pure (baseline_output, false)
  pure ({ original_prompt := prompt, prompt_after_guard := prompt_to_use,
          baseline_output := baseline_output, output_after_guard := outPair.1,
          prompt_was_filtered := prompt_filtered,
          response_was_filtered := outPair.2 }, 1)

/-- One iteration of the `manual_demo.interactive_demo` loop after the
operator choices, stripped of the rendering calls: guard the prompt if
requested; if `guard_before` held and the guarded prompt is falsy, report
the turn with empty baseline/output and `guard_after=False` WITHOUT
calling the generation oracle; otherwise generate (or take the simulated
response) and optionally guard the output.  The second component counts
the text-generation calls made for `baseline_output` (line
`baseline_output = call_local_llm(prompt_to_use)`). -/
def manualTurn (oracle : String → Except String String)
    (validator_types : List String)
    (guard_before guard_after use_real_llm : Bool)
    (simulated prompt : String) : ExchangeResult × Nat :=
  let prompt_to_use :=
    if guard_before then manualApplyGuard oracle validator_types prompt
    else prompt
  if guard_before && prompt_to_use == "" then
    ({ original_prompt := prompt, prompt_after_guard := prompt_to_use,
       baseline_output := "", output_after_guard := "",
       prompt_was_filtered :=
         manualPromptTriggered guard_before prompt_to_use prompt,
       response_was_filtered := false }, 0)
  else
    let baseline_output :=
      if use_real_llm then manualCallLocalLlm oracle prompt_to_use
      else simulated
    let output_after_guard :=
      if guard_after then manualApplyGuard oracle validator_types baseline_output
      else baseline_output
    ({ original_prompt := prompt, prompt_after_guard := prompt_to_use,
       baseline_output := baseline_output,
       output_after_guard := output_after_guard,
       prompt_was_filtered :=
         manualPromptTriggered guard_before prompt_to_use prompt,
       response_was_filtered :=
         guard_after && (output_after_guard != baseline_output) },
     if use_real_llm then 1 else 0)

/-- Helper: the Before-LLM "Triggered" cell of `manual_demo` is true iff
the guard ran and changed the prompt. -/
theorem manualPromptTriggered_iff (guard_before : Bool)
    (prompt_after_guard original_prompt : String) :
    manualPromptTriggered guard_before prompt_after_guard original_prompt
        = true ↔
      (guard_before = true ∧ prompt_after_guard ≠ original_prompt) := by
  cases guard_before <;> simp [manualPromptTriggered, bne_iff_ne]

/-- Helper: the `prompt_filtered` flag of `run_demo` is true iff the guard ran and
changed the prompt. -/
theorem autoPromptFiltered_iff (guard_before : Bool)
    (original_prompt prompt_after_guard : String) :
    autoPromptFiltered guard_before original_prompt prompt_after_guard
        = true ↔
      (guard_before = true ∧ prompt_after_guard ≠ original_prompt) := by
  cases guard_before <;> simp [autoPromptFiltered, bne_iff_ne, ne_comm]

/-- C7: for every exchange, the reported `prompt_was_filtered` flag (the
"Triggered" value of the Before-LLM stage) is true iff guard-before is
enabled and the prompt after the guard differs from the original prompt —
for the `auto_demo.run_demo` flag, for the `manual_demo.pretty_print_turn`
cell, and for the flag recorded by a full `manual_demo` turn. -/
theorem prompt_was_filtered_iff_guarded_and_changed
    (guard_before : Bool) (original_prompt prompt_after_guard : String)
    (oracle : String → Except String String) (validator_types : List String)
    (guard_after use_real_llm : Bool) (simulated : String) :
    (autoPromptFiltered guard_before original_prompt prompt_after_guard
        = true ↔
      (guard_before = true ∧ prompt_after_guard ≠ original_prompt)) ∧
    (manualPromptTriggered guard_before prompt_after_guard original_prompt
        = true ↔
      (guard_before = true ∧ prompt_after_guard ≠ original_prompt)) ∧
    ((manualTurn oracle validator_types guard_before guard_after use_real_llm
          simulated original_prompt).1.prompt_was_filtered = true ↔
      (guard_before = true ∧
        (manualTurn oracle validator_types guard_before guard_after
            use_real_llm simulated original_prompt).1.prompt_after_guard ≠
          (manualTurn oracle validator_types guard_before guard_after
            use_real_llm simulated original_prompt).1.original_prompt)) := by
  refine ⟨autoPromptFiltered_iff _ _ _, manualPromptTriggered_iff _ _ _, ?_⟩
  simp only [manualTurn]
  repeat' split
  all_goals exact manualPromptTriggered_iff _ _ _

/-- C8: the pipeline constructed from an empty screen-kind list is the
identity: `auto_demo.apply_guard` returns the input (and raises nothing),
and `manual_demo.apply_guard` returns the input, for every input. -/
theorem empty_validator_list_identity
    (oracle : String → Except String String) (text : String) :
    autoApplyGuard oracle text [] = .ok text ∧
    manualApplyGuard oracle [] text = text := by
  refine ⟨rfl, ?_⟩
  by_cases h : text = ""
  · subst h; rfl
  · simp [manualApplyGuard, applyGuardWith, manualParse, guardParse,
      guardAnyFail, manualCreateGuard, h, Except.map, pure, Except.pure]

/-- C9: `manual_demo.apply_guard` is fail-open — for every non-empty input
on which `guard.parse` raises, it returns the original input unchanged
(not `""`, and no propagated error: the function is total). -/
theorem manual_apply_guard_fail_open
    (parse : String → Except String (Option String)) (text e : String)
    (h1 : text ≠ "") (h2 : parse text = .error e) :
    (applyGuardWith parse text).1 = text := by
  simp [applyGuardWith, h1, h2]

/-- Witness for C9 at a concrete raising `parse` and input `"hello"`. -/
theorem manual_apply_guard_fail_open_witness :
    "hello" ≠ "" ∧
    (fun _ : String =>
        (Except.error "guardrails internal error" :
          Except String (Option String))) "hello" =
      Except.error "guardrails internal error" ∧
    (applyGuardWith
        (fun _ : String => Except.error "guardrails internal error")
        "hello").1 = "hello" :=
  ⟨by decide, rfl,
    manual_apply_guard_fail_open
      (fun _ => Except.error "guardrails internal error") "hello"
      "guardrails internal error" (by decide) rfl⟩

/-- C10: `manual_demo.apply_guard` on the empty string returns `""` with
zero guard constructions/parses (`if not text: return ""` runs before
`create_guard`), for every oracle and configured validator-type list. -/
theorem manual_apply_guard_empty_input_no_calls
    (oracle : String → Except String String)
    (validator_types : List String) :
    applyGuardWith (manualParse oracle validator_types) "" = ("", 0) := rfl

/-- C6 counterexample: requesting the unrecognized screen kind
`"moderation"` is NOT surfaced as a rejected configuration — both
`create_guard` functions succeed, `manual_demo` silently ignoring the name
(empty guard) and `auto_demo` silently substituting the `LLMSafety`
screen. -/
theorem unrecognized_validator_not_rejected :
    manualCreateGuard ["moderation"] = [] ∧
    autoCreateGuard ["moderation"] = [Validator.LLMSafety] :=
  ⟨rfl, rfl⟩

/-- C6 amended: an unrecognized screen-kind name is silently dropped by
`manual_demo.create_guard` and silently replaced by the `LLMSafety`
screen by `auto_demo.create_guard`; no rejection is surfaced. -/
theorem unrecognized_validator_ignored_or_substituted
    (t : String) (validator_types : List String)
    (h1 : t ≠ "regex") (h2 : t ≠ "llm") :
    manualCreateGuard (t :: validator_types) =
      manualCreateGuard validator_types ∧
    autoCreateGuard (t :: validator_types) =
      Validator.LLMSafety :: autoCreateGuard validator_types := by
  constructor
  · simp [manualCreateGuard, h1, h2]
  · simp [autoCreateGuard, h1]

/-- Witness for the amended C6 at the concrete name `"moderation"`. -/
theorem unrecognized_validator_ignored_or_substituted_witness :
    ("moderation" ≠ "regex" ∧ "moderation" ≠ "llm") ∧
    (manualCreateGuard ["moderation"] = manualCreateGuard [] ∧
      autoCreateGuard ["moderation"] =
        Validator.LLMSafety :: autoCreateGuard []) :=
  ⟨⟨by decide, by decide⟩,
    unrecognized_validator_ignored_or_substituted "moderation" []
      (by decide) (by decide)⟩

/-- C1 counterexample: in `auto_demo.run_demo`, with guard-before enabled
and the non-empty prompt `"kitty"` fully filtered to `""`, the generation
oracle IS invoked (call count 1, with the empty prompt) and
`baseline_output` is the oracle reply, not the empty string —
`baseline_output = call_local_llm(prompt_to_use)` runs unconditionally. -/
theorem auto_run_demo_invokes_oracle_on_filtered_prompt :
    autoTurn (fun _ => .ok "dogs are great") ["regex"] true false "kitty" =
      .ok ({ original_prompt := "kitty", prompt_after_guard := "",
             baseline_output := "dogs are great",
             output_after_guard := "dogs are great",
             prompt_was_filtered := true,
             response_was_filtered := false }, 1) := rfl

/-- C1 amended: in `manual_demo.interactive_demo`, with guard-before
enabled, if the guarded prompt is empty while the original prompt was
non-empty, the generation oracle is never invoked for that turn (call
count 0) and `baseline_output` is the empty string. -/
theorem manual_filtered_prompt_skips_oracle
    (oracle : String → Except String String) (validator_types : List String)
    (guard_after use_real_llm : Bool) (simulated prompt : String)
    (_h1 : prompt ≠ "")
    (h2 : manualApplyGuard oracle validator_types prompt = "") :
    (manualTurn oracle validator_types true guard_after use_real_llm
        simulated prompt).2 = 0 ∧
    (manualTurn oracle validator_types true guard_after use_real_llm
        simulated prompt).1.baseline_output = "" := by
  simp [manualTurn, h2]

/-- Witness for the amended C1: prompt `"kitty"`, regex validator only. -/
theorem manual_filtered_prompt_skips_oracle_witness :
    "kitty" ≠ "" ∧
    manualApplyGuard (fun _ => .ok "SAFE") ["regex"] "kitty" = "" ∧
    ((manualTurn (fun _ => .ok "SAFE") ["regex"] true false true ""
        "kitty").2 = 0 ∧
      (manualTurn (fun _ => .ok "SAFE") ["regex"] true false true ""
        "kitty").1.baseline_output = "") :=
  ⟨by decide, by decide,
    manual_filtered_prompt_skips_oracle (fun _ => .ok "SAFE") ["regex"]
      false true "" "kitty" (by decide) (by decide)⟩

/-- C2 counterexample: in `auto_demo`, when the oracle reply is empty the
the `_validate` of the classifier raises (`.strip().split()[0]` → IndexError)
instead of returning a failing verdict. -/
theorem auto_classifier_raises_on_empty_reply :
    autoLLMSafetyValidate (fun _ => .ok "") "I love dogs" =
      .error "IndexError: list index out of range" := rfl

/-- C2 amended: in `manual_demo`, if the oracle call fails or every
successful reply is whitespace-only (so the guarded call yields a falsy
`label_raw`), `LLMSafety._validate` does not raise and returns the
failing verdict `FailResult "LLM classified content as UNSAFE."`. -/
theorem manual_classifier_fail_closed
    (oracle : String → Except String String) (text : String)
    (h : ∀ r, oracle (classifierPrompt text) = .ok r → pyStrip r = "") :
    manualLLMSafetyValidate oracle text =
      .ok (.FailResult "LLM classified content as UNSAFE.") := by
  unfold manualLLMSafetyValidate manualClassify manualCallLocalLlm
  cases hc : oracle (classifierPrompt text) with
  | error e => simp only [hc]; rfl
  | ok r => simp only [hc, h r hc]; rfl

/-- Witness for the amended C2 at a concrete failing oracle. -/
theorem manual_classifier_fail_closed_witness :
    (∀ r, (fun _ : String =>
        (Except.error "ollama timeout" : Except String String))
        (classifierPrompt "hello") = .ok r → pyStrip r = "") ∧
    manualLLMSafetyValidate (fun _ => Except.error "ollama timeout")
        "hello" =
      .ok (.FailResult "LLM classified content as UNSAFE.") :=
  ⟨(fun _ hr => nomatch hr),
    manual_classifier_fail_closed (fun _ => Except.error "ollama timeout")
      "hello" (fun _ hr => nomatch hr)⟩

/-- C3 counterexample: in `auto_demo`, a failure of the generation call is
NOT caught — `call_local_llm` has no `try/except`, so the exchange
propagates the error to its caller instead of producing an empty output. -/
theorem auto_oracle_failure_propagates :
    autoTurn (fun _ => .error "ConnectionError: ollama unreachable") []
        false false "Tell me about dogs" =
      .error "ConnectionError: ollama unreachable" := rfl

/-- C3 amended: in `manual_demo`, a failure of the generation call for
the prompt in use is caught inside `call_local_llm` and mapped to the
empty string: the turn completes (the model is total, so no fault
propagates) with `baseline_output = ""`. -/
theorem manual_oracle_failure_maps_to_empty_output
    (oracle : String → Except String String) (validator_types : List String)
    (guard_before guard_after : Bool) (simulated prompt e : String)
    (h : oracle (if guard_before then
          manualApplyGuard oracle validator_types prompt
        else prompt) = .error e) :
    (manualTurn oracle validator_types guard_before guard_after true
        simulated prompt).1.baseline_output = "" := by
  simp only [manualTurn]
  repeat' split
  all_goals simp_all [manualCallLocalLlm]

/-- Witness for the amended C3 at a concrete failing oracle. -/
theorem manual_oracle_failure_maps_to_empty_output_witness :
    (fun _ : String =>
        (Except.error "ConnectionError" : Except String String))
      (if false then manualApplyGuard (fun _ => Except.error "ConnectionError") [] "hi"
       else "hi") = .error "ConnectionError" ∧
    (manualTurn (fun _ => Except.error "ConnectionError") [] false false
        true "sim" "hi").1.baseline_output = "" :=
  ⟨rfl,
    manual_oracle_failure_maps_to_empty_output
      (fun _ => Except.error "ConnectionError") [] false false "sim" "hi"
      "ConnectionError" rfl⟩

/-- C4: any text containing a banned literal word (case-insensitive
substring) is failed by `RegexBanList._validate` with a reason naming a
banned word that occurs in it. -/
theorem banned_word_fails_with_reason (value : String)
    (h : ∃ w ∈ banned_words, pyStrIn (pyLower w) (pyLower value) = true) :
    ∃ w ∈ banned_words, pyStrIn (pyLower w) (pyLower value) = true ∧
      regexBanListValidate value =
        .FailResult ("Text contains banned word: '" ++ w ++ "'") := by
  by_cases hk : pyStrIn (pyLower "kitty") (pyLower value) = true
  · refine ⟨"kitty", by simp [banned_words], hk, ?_⟩
    simp [regexBanListValidate, findBannedWord, banned_words, hk]
  · obtain ⟨w, hw, hin⟩ := h
    simp only [banned_words, List.mem_cons, List.mem_singleton,
      List.not_mem_nil, or_false] at hw
    rw [Bool.not_eq_true] at hk
    rcases hw with rfl | rfl
    · rw [hk] at hin; exact absurd hin (by simp)
    · refine ⟨"meow", by simp [banned_words], hin, ?_⟩
      simp [regexBanListValidate, findBannedWord, banned_words, hk, hin]

/-- Witness for C4 at the concrete input `"Free KITTY pics!"`. -/
theorem banned_word_fails_with_reason_witness :
    (∃ w ∈ banned_words,
      pyStrIn (pyLower w) (pyLower "Free KITTY pics!") = true) ∧
    (∃ w ∈ banned_words,
      pyStrIn (pyLower w) (pyLower "Free KITTY pics!") = true ∧
      regexBanListValidate "Free KITTY pics!" =
        .FailResult ("Text contains banned word: '" ++ w ++ "'")) :=
  ⟨⟨"kitty", by decide, by decide⟩,
    banned_word_fails_with_reason "Free KITTY pics!"
      ⟨"kitty", by decide, by decide⟩⟩

/-- Helper: no occurrence of a non-empty stem starts at or past the end
of the text. -/
theorem ciOccursAt_eq_false_of_le (text stem : List Char) (i : Nat)
    (hs : stem ≠ []) (hi : text.length ≤ i) :
    ciOccursAt text stem i = false := by
  unfold ciOccursAt
  rw [List.drop_eq_nil_of_le hi]
  cases stem with
  | nil => exact absurd rfl hs
  | cons a as => rfl

/-- Helper: `pattern.search` fails when every in-range occurrence of the
stem violates the word-boundary requirements of the pattern. -/
theorem patSearch_eq_false_of_no_whole_word (text stem : List Char)
    (hs : stem ≠ [])
    (h : ∀ i, i < text.length → ciOccursAt text stem i = true →
      wholeWordStemAt text stem i = false) :
    patSearch text stem = false := by
  unfold patSearch
  rw [List.any_eq_false]
  intro i _
  unfold patMatchAt
  by_cases hlt : i < text.length
  · by_cases hc : ciOccursAt text stem i = true
    · simp [hc, h i hlt hc]
    · rw [Bool.not_eq_true] at hc
      simp [hc]
  · simp [ciOccursAt_eq_false_of_le text stem i hs (Nat.le_of_not_lt hlt)]

/-- C5: a text in which every (case-insensitive) occurrence of the
pattern stems `cat` / `kitten` violates the word-boundary requirements of
`\b<stem>[s]?\b` (i.e. the stems occur only inside larger words), and
which contains no banned literal word, passes `RegexBanList._validate`:
the word-boundary-anchored patterns do not fire on non-whole-word
substrings. -/
theorem non_whole_word_stems_pass (value : String)
    (hw : ∀ w ∈ banned_words, pyStrIn (pyLower w) (pyLower value) = false)
    (hcat : ∀ i, i < value.data.length →
      ciOccursAt value.data "cat".data i = true →
      wholeWordStemAt value.data "cat".data i = false)
    (hkitten : ∀ i, i < value.data.length →
      ciOccursAt value.data "kitten".data i = true →
      wholeWordStemAt value.data "kitten".data i = false) :
    regexBanListValidate value = .PassResult := by
  have h1 := hw "kitty" (by simp [banned_words])
  have h2 := hw "meow" (by simp [banned_words])
  have p1 := patSearch_eq_false_of_no_whole_word value.data "cat".data
    (by decide) hcat
  have p2 := patSearch_eq_false_of_no_whole_word value.data "kitten".data
    (by decide) hkitten
  simp [regexBanListValidate, findBannedWord, banned_words,
    anyPatternMatches, patternStems, h1, h2, p1, p2]

/-- Witness for C5 at the concrete input `"concatenate kittenish"`, where
`cat` and `kitten` occur only inside larger words. -/
theorem non_whole_word_stems_pass_witness :
    (∀ w ∈ banned_words,
      pyStrIn (pyLower w) (pyLower "concatenate kittenish") = false) ∧
    (∀ i, i < ("concatenate kittenish").data.length →
      ciOccursAt ("concatenate kittenish").data "cat".data i = true →
      wholeWordStemAt ("concatenate kittenish").data "cat".data i = false) ∧
    (∀ i, i < ("concatenate kittenish").data.length →
      ciOccursAt ("concatenate kittenish").data "kitten".data i = true →
      wholeWordStemAt ("concatenate kittenish").data "kitten".data i
        = false) ∧
    regexBanListValidate "concatenate kittenish" = .PassResult :=
  ⟨by decide, by decide, by decide,
    non_whole_word_stems_pass "concatenate kittenish"
      (by decide) (by decide) (by decide)⟩

example :
    manualApplyGuard (fun _ => .ok "SAFE") ["regex"] "I love kitty pics" = "" := by
  decide

end AutoModeration
